import Mathlib

/-!
Shallow embedding of the ZLAC8030L ROS driver node (src/scripts/driver_node.py).

Machine floats are modelled as exact rationals.  The CAN actuator interface
is an oracle `Wheel → Option ℚ` (`none` = the call raised an exception).
The helper modules `differential_drive.py` (class DiffDrive) and `pid.py`
(class PID) are imported by driver_node.py but are not part of the sources
here, so they are modelled from the spec, as marked on each definition.
-/

namespace ZLAC

/-- The four wheels, keyed "fl", "bl", "br", "fr" in the source dictionaries. -/
inductive Wheel
  | fl
  | bl
  | br
  | fr
deriving DecidableEq, Repr

/-- Iteration order of every per-wheel loop in driver_node.py. -/
def wheelOrder : List Wheel := [.fl, .bl, .br, .fr]

/-- Source line 52: `self._flip_direction = {"fl": -1, "bl": -1, "br": 1, "fr": 1}`. -/
def flip_direction : Wheel → ℚ
  | .fl => -1
  | .bl => -1
  | .br => 1
  | .fr => 1

/-- Source line 51: `self._wheel_ids = {"fl":1, "bl":2, "br":3, "fr":4}`. -/
def wheel_ids : Wheel → ℕ
  | .fl => 1
  | .bl => 2
  | .br => 3
  | .fr => 4

/-- Modelled from the spec: class PID of pid.py is not among the sources.
Spec 4.3: gains fixed at configuration time, an accumulated integral term
(simple accumulating sum, no windup clamp) and the previous error, stored
and updated on every call. -/
structure PID where
  kp : ℚ
  ki : ℚ
  kd : ℚ
  integral : ℚ
  prev_error : ℚ
deriving DecidableEq, Repr

/-- Modelled from the spec: `update(error) → output`,
output = kp·error + ki·∫error + kd·Δerror, integral accumulated by sum,
previous error overwritten on every call (spec 4.3). -/
def PID.update (p : PID) (e : ℚ) : PID × ℚ :=
  let integral := p.integral + e
  let out := p.kp * e + p.ki * integral + p.kd * (e - p.prev_error)
  ({ p with integral := integral, prev_error := e }, out)

/-- Modelled from the spec: class DiffDrive of differential_drive.py is not
among the sources.  It holds the geometry, the four measured wheel angular
velocities (rad/s, set by the driver before integration) and the running
pose, which persists across calls (spec 4.2 Contract B). -/
structure DiffDrive where
  wheel_radius : ℚ
  track_width : ℚ
  fl_vel : ℚ
  fr_vel : ℚ
  bl_vel : ℚ
  br_vel : ℚ
  x : ℚ
  y : ℚ
  yaw : ℚ
deriving DecidableEq, Repr

/-- The dictionary returned by `calcRobotOdom` (fields x, y, yaw, v, w). -/
structure OdomOut where
  x : ℚ
  y : ℚ
  yaw : ℚ
  v : ℚ
  w : ℚ
deriving DecidableEq, Repr

/-- Modelled from the spec: effective left side linear velocity, the average
of the two left wheels' angular velocities times the wheel radius. -/
def DiffDrive.leftLinVel (d : DiffDrive) : ℚ :=
  (d.fl_vel + d.bl_vel) / 2 * d.wheel_radius

/-- Modelled from the spec: effective right side linear velocity. -/
def DiffDrive.rightLinVel (d : DiffDrive) : ℚ :=
  (d.fr_vel + d.br_vel) / 2 * d.wheel_radius

/-- Modelled from the spec: robot-frame forward velocity v = (left+right)/2. -/
def DiffDrive.odomV (d : DiffDrive) : ℚ :=
  (d.leftLinVel + d.rightLinVel) / 2

/-- Modelled from the spec: robot-frame yaw rate w = (right−left)/trackWidth. -/
def DiffDrive.odomW (d : DiffDrive) : ℚ :=
  (d.rightLinVel - d.leftLinVel) / d.track_width

/-- Modelled from the spec: `calcRobotOdom(dt)`, spec 4.2 Contract B —
integrate heading first (yaw += w·dt) then position using the updated
heading (x += v·cos(yaw)·dt, y += v·sin(yaw)·dt); the pose persists (it is
the running state).  The trigonometric functions are abstracted as the
parameters `cosF`/`sinF` so the embedding stays inside ℚ; no theorem below
depends on their values. -/
def DiffDrive.calcRobotOdom (d : DiffDrive) (dt : ℚ) (cosF sinF : ℚ → ℚ) :
    DiffDrive × OdomOut :=
  let v := d.odomV
  let w := d.odomW
  let yaw := d.yaw + w * dt
  let x := d.x + v * cosF yaw * dt
  let y := d.y + v * sinF yaw * dt
  ({ d with x := x, y := y, yaw := yaw },
   { x := x, y := y, yaw := yaw, v := v, w := w })

/-- Modelled from the spec: `calcWheelVel(v, w)`, spec 4.2 Contract A —
left = (v − w·trackWidth/2)/wheelRadius, right = (v + w·trackWidth/2)/wheelRadius. -/
def DiffDrive.calcWheelVel (d : DiffDrive) (v w : ℚ) : ℚ × ℚ :=
  ((v - w * d.track_width / 2) / d.wheel_radius,
   (v + w * d.track_width / 2) / d.wheel_radius)

/-- Source line 132: `rpm / 9.5493`. -/
def rpmToRps (rpm : ℚ) : ℚ := rpm / (95493 / 10000)

/-- Source line 135: `rad * 9.5493`. -/
def rpsToRpm (rad : ℚ) : ℚ := rad * (95493 / 10000)

/-- The mutable state of the Driver object that the claims are about:
the three per-wheel dictionaries, the per-wheel PID dictionary, the
DiffDrive object, the two timestamps, and the configuration scalars. -/
structure DriverState where
  torque_mode : Bool
  target_whl_rpm : Wheel → ℚ
  current_whl_rpm : Wheel → ℚ
  target_current : Wheel → ℚ
  vel_pids : Wheel → PID
  dd : DiffDrive
  last_odom_dt : ℚ
  last_cmd_t : ℚ
  max_vx : ℚ
  max_w : ℚ
  max_lin_accel : ℚ
  max_ang_accel : ℚ
  cmd_timeout : ℚ

/-- Pointwise update of a per-wheel rational dictionary. -/
def updW (f : Wheel → ℚ) (t : Wheel) (v : ℚ) : Wheel → ℚ :=
  fun u => if u = t then v else f u

/-- Pointwise update of the per-wheel PID dictionary. -/
def updP (f : Wheel → PID) (t : Wheel) (p : PID) : Wheel → PID :=
  fun u => if u = t then p else f u

/-- One successful iteration of the torque-mode read loop of
`applyControls` (source lines 145-151) for wheel `t` with read value `rv`:
`self._current_whl_rpm[t] = v_dict['value']` (the raw value; the flipped
`vel` local on line 147 is computed but never used in this loop),
`err_rpm[t] = self._target_whl_rpm[t] - self._current_whl_rpm[t]`, and
`self._target_current[t] = self._vel_pids["fr"].update(err_rpm[t])` —
note the literal key "fr": every wheel's update goes through the "fr"
regulator instance.  The second component threads the local `err_rpm`
dictionary (initialised to zeros on source line 144). -/
def torqueReadStep (sp : DriverState × (Wheel → ℚ)) (t : Wheel) (rv : ℚ) :
    DriverState × (Wheel → ℚ) :=
  let s := sp.1
  let err := s.target_whl_rpm t - rv
  let pr := (s.vel_pids .fr).update err
  ({ s with
      current_whl_rpm := updW s.current_whl_rpm t rv,
      vel_pids := updP s.vel_pids .fr pr.1,
      target_current := updW s.target_current t pr.2 },
   updW sp.2 t err)

/-- The torque-mode read loop over a wheel list.  A `none` read raises an
exception out of the `for` loop; it is caught by the surrounding
try/except (source line 153), so the remaining wheels are not processed
and the state accumulated so far is kept. -/
def torqueReadGo (sp : DriverState × (Wheel → ℚ)) :
    List Wheel → (Wheel → Option ℚ) → DriverState × (Wheel → ℚ)
  | [], _ => sp
  | t :: rest, g =>
    match g t with
    | none => sp
    | some rv => torqueReadGo (torqueReadStep sp t rv) rest g

/-- The whole torque-mode read/PID phase of `applyControls`
(source lines 143-154), over the wheels in source order. -/
def torqueReadPhase (s : DriverState) (g : Wheel → Option ℚ) :
    DriverState × (Wheel → ℚ) :=
  torqueReadGo (s, fun _ => 0) wheelOrder g

/-- `applyControls` (source lines 138-170).  Besides the updated driver
state it returns the list of (wheel, value) pairs handed to the actuator
write calls of this tick: `setTorque(..., self._target_current[t])` in
torque mode, `setVelocity(..., self._target_whl_rpm[t])` in velocity
mode.  Writes mutate no driver state. -/
def applyControls (s : DriverState) (g : Wheel → Option ℚ) :
    DriverState × List (Wheel × ℚ) :=
  if s.torque_mode then
    let s1 := (torqueReadPhase s g).1
    (s1, wheelOrder.map fun t => (t, s1.target_current t))
  else
    (s, wheelOrder.map fun t => (t, s.target_whl_rpm t))

/-- The acceleration-sign computation of `cmdVelCallback`
(source lines 194-206): `(abs_dv/dv)*max_accel` when `abs_dv > 0`, the
positive maximum otherwise. -/
def accelSign (dv maxAcc : ℚ) : ℚ :=
  if |dv| > 0 then |dv| / dv * maxAcc else maxAcc

/-- The acceleration-limit stage for one axis (source lines 194-223):
`max_v = current + dt*acc`; keep the raw command unless its error
magnitude `|raw − current|` exceeds `|max_v − current|`, in which case
substitute `max_v`. -/
def preClampAxis (raw current dt maxAcc : ℚ) : ℚ :=
  let acc := accelSign (raw - current) maxAcc
  let bound := current + dt * acc
  if |raw - current| > |bound - current| then bound else raw

/-- Source lines 175-176: `sign_x = -1 if msg.linear.x < 0 else 1`
(computed from the raw command, before any shaping). -/
def rawSign (raw : ℚ) : ℚ := if raw < 0 then -1 else 1

/-- The magnitude clamp for one axis (source lines 225-230): when
`|v| > maxMag` the output is `sign * maxMag` where `sign` is the sign of
the RAW command, not of `v`. -/
def clampAxis (v raw maxMag : ℚ) : ℚ :=
  if |v| > maxMag then rawSign raw * maxMag else v

/-- The full per-axis command shaping of `cmdVelCallback`: acceleration
limit then magnitude clamp. -/
def shapeAxis (raw current dt maxAcc maxMag : ℚ) : ℚ :=
  clampAxis (preClampAxis raw current dt maxAcc) raw maxMag

/-- `cmdVelCallback` (source lines 174-241): update the command timestamp,
obtain the current (v, w) estimate by calling `calcRobotOdom` on the
shared DiffDrive object with dt = time since the last command (source
line 189 — this advances the running pose), shape both axes, convert
through inverse kinematics to per-side rad/s, then to RPM, and store the
per-wheel targets flipped by wheel orientation. -/
def cmdVelCallback (s : DriverState) (lin ang now : ℚ) (cosF sinF : ℚ → ℚ) :
    DriverState :=
  let dt := now - s.last_cmd_t
  let r := s.dd.calcRobotOdom dt cosF sinF
  let odom := r.2
  let v_d := shapeAxis lin odom.v dt s.max_lin_accel s.max_vx
  let w_d := shapeAxis ang odom.w dt s.max_ang_accel s.max_w
  let wlr := r.1.calcWheelVel v_d w_d
  let wl_rpm := rpsToRpm wlr.1
  let wr_rpm := rpsToRpm wlr.2
  { s with
    last_cmd_t := now,
    dd := r.1,
    target_whl_rpm := fun t =>
      match t with
      | .fl => wl_rpm * flip_direction .fl
      | .bl => wl_rpm * flip_direction .bl
      | .br => wr_rpm * flip_direction .br
      | .fr => wr_rpm * flip_direction .fr }

/-- One successful iteration of the velocity read loop of `pubOdom`
(source lines 252-264): store the raw RPM in `_current_whl_rpm`, and the
orientation-flipped value, converted to rad/s, in the DiffDrive wheel
velocity field for this wheel. -/
def odomReadStep (s : DriverState) (t : Wheel) (rv : ℚ) : DriverState :=
  let rps := rpmToRps (rv * flip_direction t)
  let dd :=
    match t with
    | .fl => { s.dd with fl_vel := rps }
    | .fr => { s.dd with fr_vel := rps }
    | .bl => { s.dd with bl_vel := rps }
    | .br => { s.dd with br_vel := rps }
  { s with current_whl_rpm := updW s.current_whl_rpm t rv, dd := dd }

/-- The `pubOdom` velocity read loop; wrapped in a single try/except
(source line 251), so the first failing read aborts the rest of the loop. -/
def odomReadGo (s : DriverState) :
    List Wheel → (Wheel → Option ℚ) → DriverState
  | [], _ => s
  | t :: rest, g =>
    match g t with
    | none => s
    | some rv => odomReadGo (odomReadStep s t rv) rest g

/-- `pubOdom` (source lines 248-317): read wheel velocities, compute
`dt = now − self._last_odom_dt` from wall-clock time with no clamp or
skip, update the timestamp, and integrate the odometry with that dt.
Returns the updated state and the published odometry values. -/
def pubOdom (s : DriverState) (now : ℚ) (g : Wheel → Option ℚ)
    (cosF sinF : ℚ → ℚ) : DriverState × OdomOut :=
  let s1 := odomReadGo s wheelOrder g
  let dt := now - s1.last_odom_dt
  let r := s1.dd.calcRobotOdom dt cosF sinF
  ({ s1 with last_odom_dt := now, dd := r.1 }, r.2)

/-- The per-wheel diagnostic message of `pubMotorState`
(zlac8030l_ros/msg/State as used on source lines 319-366). -/
structure StateMsg where
  node_id : ℕ
  voltage : ℚ
  target_current_mA : ℚ
  target_current_A : ℚ
  current : ℚ
  error_code : ℚ
  actual_speed : ℚ
  target_speed : ℚ
deriving DecidableEq, Repr

/-- One wheel's message construction in `pubMotorState` (source lines
320-366).  Each of the voltage / motor-current / error-code reads sits in
its own try/except whose failure leaves the message field at its default
0; the target-current, actual-speed and target-speed fields come from the
driver dictionaries and never fail.  The message is published
unconditionally at the end of the loop body. -/
def pubMotorStateMsg (s : DriverState) (t : Wheel)
    (voltR currR errR : Option ℚ) : StateMsg :=
  { node_id := wheel_ids t
    voltage := voltR.getD 0
    target_current_mA := s.target_current t
    target_current_A := s.target_current t / 1000
    current := currR.getD 0
    error_code := errR.getD 0
    actual_speed := s.current_whl_rpm t
    target_speed := s.target_whl_rpm t }

/-- The command-staleness watchdog at the top of each `mainLoop` tick
(source lines 373-379): if `now − self._last_cmd_t > self._cmd_timeout`,
every wheel's target RPM is set to 0.0.  This is the state
`applyControls` then runs on. -/
def tickPreWrite (s : DriverState) (now : ℚ) : DriverState :=
  if now - s.last_cmd_t > s.cmd_timeout then
    { s with target_whl_rpm := fun _ => 0 }
  else s

/-- One `mainLoop` tick (source lines 372-387): watchdog, then
`applyControls`, then `pubOdom` (which reads the clock again, `nowOdom`).
Returns the final state, the actuator writes of `applyControls`, and the
published odometry.  (`pubMotorState` is modelled separately; it mutates
no driver state.) -/
def tick (s : DriverState) (now nowOdom : ℚ) (gCtrl gOdom : Wheel → Option ℚ)
    (cosF sinF : ℚ → ℚ) : DriverState × List (Wheel × ℚ) × OdomOut :=
  let s1 := tickPreWrite s now
  let ac := applyControls s1 gCtrl
  let po := pubOdom ac.1 nowOdom gOdom cosF sinF
  (po.1, ac.2, po.2)

/-- A fresh PID with the default gains of source lines 57-59
(vel_kp = 200, vel_ki = 10, vel_kd = 0). -/
def pid0 : PID :=
  { kp := 200, ki := 10, kd := 0, integral := 0, prev_error := 0 }

/-- A DiffDrive with unit geometry and pose at the origin. -/
def dd0 : DiffDrive :=
  { wheel_radius := 1, track_width := 1, fl_vel := 0, fr_vel := 0,
    bl_vel := 0, br_vel := 0, x := 0, y := 0, yaw := 0 }

/-- A torque-mode driver state with the default configuration
(max_vx = 2, max_w = 1.57, accelerations 10 and 15, cmd_timeout = 0.1),
zeroed dictionaries and fresh PIDs. -/
def baseState : DriverState :=
  { torque_mode := true
    target_whl_rpm := fun _ => 0
    current_whl_rpm := fun _ => 0
    target_current := fun _ => 0
    vel_pids := fun _ => pid0
    dd := dd0
    last_odom_dt := 0
    last_cmd_t := 0
    max_vx := 2
    max_w := 157 / 100
    max_lin_accel := 10
    max_ang_accel := 15
    cmd_timeout := 1 / 10 }

/-- C1: on every control-loop tick, if the elapsed time since the last
received velocity command exceeds the configured command timeout, then
all four wheels' target RPM values are exactly 0 in the state the tick
hands to `applyControls` (the actuator-write phase); in velocity mode the
writes of that tick are consequently all zero. -/
theorem tick_timeout_zeroes_targets_before_write
    (s : DriverState) (now nowOdom : ℚ) (gCtrl gOdom : Wheel → Option ℚ)
    (cosF sinF : ℚ → ℚ)
    (h : now - s.last_cmd_t > s.cmd_timeout) :
    (∀ t, (tickPreWrite s now).target_whl_rpm t = 0) ∧
    (s.torque_mode = false →
      (tick s now nowOdom gCtrl gOdom cosF sinF).2.1 =
        [(Wheel.fl, 0), (Wheel.bl, 0), (Wheel.br, 0), (Wheel.fr, 0)]) := by
  constructor
  · intro t
    simp [tickPreWrite, if_pos h]
  · intro hm
    simp [tick, tickPreWrite, if_pos h, applyControls, hm, wheelOrder]

/-- C1 witness: a stale command (1 second elapsed against a 0.1 second
timeout) forces all four target RPMs to zero before the write. -/
theorem tick_timeout_zeroes_targets_before_write_witness :
    ((1 : ℚ) - baseState.last_cmd_t > baseState.cmd_timeout) ∧
    (∀ t, (tickPreWrite baseState 1).target_whl_rpm t = 0) :=
  ⟨by norm_num [baseState], (tick_timeout_zeroes_targets_before_write
    baseState 1 1 (fun _ => none) (fun _ => none) id id
    (by norm_num [baseState])).1⟩

/-- C10: the command-loss safety stop zeroes only the target-RPM
dictionary — the stored per-wheel target current is untouched by it — and
when the tick's velocity read fails at the first wheel (so no PID update
runs), the torque-mode actuator writes of that tick are exactly the
previously computed target currents, not zero. -/
theorem safety_stop_leaves_target_current
    (s : DriverState) (now nowOdom : ℚ) (gCtrl gOdom : Wheel → Option ℚ)
    (cosF sinF : ℚ → ℚ)
    (hmode : s.torque_mode = true)
    (h : now - s.last_cmd_t > s.cmd_timeout)
    (hfail : gCtrl .fl = none) :
    (∀ t, (tickPreWrite s now).target_current t = s.target_current t) ∧
    (∀ t, (tickPreWrite s now).vel_pids t = s.vel_pids t) ∧
    (tick s now nowOdom gCtrl gOdom cosF sinF).2.1 =
      wheelOrder.map (fun t => (t, s.target_current t)) := by
  refine ⟨fun t => by simp [tickPreWrite, if_pos h],
          fun t => by simp [tickPreWrite, if_pos h], ?_⟩
  simp [tick, tickPreWrite, if_pos h, applyControls, hmode, torqueReadPhase,
    wheelOrder, torqueReadGo, hfail]

/-- C10 witness: with stale commands and a failed velocity read, the tick
still writes the prior target currents (7 mA here) to every wheel. -/
theorem safety_stop_leaves_target_current_witness :
    (baseState.torque_mode = true ∧
     (1 : ℚ) - baseState.last_cmd_t > baseState.cmd_timeout ∧
     (fun _ : Wheel => (none : Option ℚ)) .fl = none) ∧
    (tick { baseState with target_current := fun _ => 7 } 1 1
        (fun _ => none) (fun _ => none) id id).2.1 =
      wheelOrder.map (fun t => (t, 7)) := by
  refine ⟨⟨rfl, by norm_num [baseState], rfl⟩, ?_⟩
  have h := safety_stop_leaves_target_current
    { baseState with target_current := fun _ => 7 } 1 1
    (fun _ => none) (fun _ => none) id id rfl
    (by norm_num [baseState]) rfl
  exact h.2.2

/-- C8: for every wheel and every diagnostic publication, if exactly one
of the voltage, motor-current or error-code reads fails, the per-wheel
state message (always constructed and published) carries the read values
of the other two fields and the stored target and actual speeds. -/
theorem motor_state_single_read_failure_resilient
    (s : DriverState) (t : Wheel) (voltR currR errR : Option ℚ)
    (_hone : (voltR = none ∧ currR.isSome ∧ errR.isSome) ∨
            (currR = none ∧ voltR.isSome ∧ errR.isSome) ∨
            (errR = none ∧ voltR.isSome ∧ currR.isSome)) :
    (∀ x, voltR = some x → (pubMotorStateMsg s t voltR currR errR).voltage = x) ∧
    (∀ x, currR = some x → (pubMotorStateMsg s t voltR currR errR).current = x) ∧
    (∀ x, errR = some x → (pubMotorStateMsg s t voltR currR errR).error_code = x) ∧
    (pubMotorStateMsg s t voltR currR errR).actual_speed = s.current_whl_rpm t ∧
    (pubMotorStateMsg s t voltR currR errR).target_speed = s.target_whl_rpm t ∧
    (pubMotorStateMsg s t voltR currR errR).target_current_mA = s.target_current t := by
  refine ⟨?_, ?_, ?_, rfl, rfl, rfl⟩ <;>
    · intro x hx
      simp [pubMotorStateMsg, hx]

/-- C8 witness: a failed voltage read alone leaves the published current
(3 mA) and error code (5) and the speeds intact. -/
theorem motor_state_single_read_failure_resilient_witness :
    (((none : Option ℚ) = none ∧ (some (3 : ℚ)).isSome ∧ (some (5 : ℚ)).isSome) ∨
     ((some (3 : ℚ)) = none ∧ (none : Option ℚ).isSome ∧ (some (5 : ℚ)).isSome) ∨
     ((some (5 : ℚ)) = none ∧ (none : Option ℚ).isSome ∧ (some (3 : ℚ)).isSome)) ∧
    ((pubMotorStateMsg baseState .fl none (some 3) (some 5)).current = 3 ∧
     (pubMotorStateMsg baseState .fl none (some 3) (some 5)).error_code = 5) := by
  refine ⟨Or.inl ⟨rfl, rfl, rfl⟩, ?_, ?_⟩
  · exact (motor_state_single_read_failure_resilient baseState .fl none
      (some 3) (some 5) (Or.inl ⟨rfl, rfl, rfl⟩)).2.1 3 rfl
  · exact (motor_state_single_read_failure_resilient baseState .fl none
      (some 3) (some 5) (Or.inl ⟨rfl, rfl, rfl⟩)).2.2.1 5 rfl

/-- Acceleration-limit stage at current velocity 0 for a positive step
command: the output is min(M, 0.1) when dt = 0.01 and max accel = 10. -/
theorem preClamp_zero_pos (M : ℚ) (hM : 0 < M) :
    preClampAxis M 0 (1/100) 10 = min M (1/10) := by
  unfold preClampAxis accelSign
  have h0 : M - 0 = M := sub_zero M
  rw [h0, abs_of_pos hM, if_pos hM, div_self (ne_of_gt hM)]
  norm_num
  rw [abs_of_pos (by norm_num : (0:ℚ) < 1/10)]
  rcases le_or_lt M (1/10) with h | h
  · rw [if_neg (not_lt.mpr h), min_eq_left h]
  · rw [if_pos h, min_eq_right (le_of_lt h)]

/-- Acceleration-limit stage at current velocity 0 for a negative step
command of magnitude M. -/
theorem preClamp_zero_neg (M : ℚ) (hM : 0 < M) :
    preClampAxis (-M) 0 (1/100) 10 = -(min M (1/10)) := by
  unfold preClampAxis accelSign
  have h0 : -M - 0 = -M := sub_zero (-M)
  have habs : |(-M)| = M := by rw [abs_neg, abs_of_pos hM]
  rw [h0, habs, if_pos hM]
  have hdiv : M / (-M) = -1 := by
    rw [div_neg, div_self (ne_of_gt hM)]
  rw [hdiv]
  norm_num
  rw [abs_of_pos (by norm_num : (0:ℚ) < 1/10)]
  rcases le_or_lt M (1/10) with h | h
  · rw [if_neg (not_lt.mpr h), min_eq_left h]
  · rw [if_pos h, min_eq_right (le_of_lt h)]

/-- The magnitude clamp is the identity on values within the maximum. -/
theorem clampAxis_of_le (v raw maxMag : ℚ) (h : |v| ≤ maxMag) :
    clampAxis v raw maxMag = v := by
  rw [clampAxis, if_neg (not_lt.mpr h)]

/-- The accel-limited step output is bounded by 0.1 in magnitude. -/
theorem abs_min_le (M : ℚ) (hM : 0 ≤ M) : |min M (1/10)| ≤ 1/10 := by
  rw [abs_of_nonneg (le_min hM (by norm_num))]
  exact min_le_right _ _

/-- C4: for every step command of magnitude M ≥ 0 and sign s, when the
current estimated linear velocity is 0, dt = 0.01 s and max_lin_accel = 10
(and the speed maximum is at least the reachable 0.1, as with the default
max_vx = 2), the shaper's linear output is exactly s · min(M, 0.1): the
raw command is kept when its error magnitude does not exceed the boundary
current + dt·signedAccel, and is replaced by the boundary otherwise. -/
theorem shape_step_accel_limit (M s maxv : ℚ) (hM : 0 ≤ M)
    (hs : s = 1 ∨ s = -1) (hmax : 1/10 ≤ maxv) :
    shapeAxis (s * M) 0 (1/100) 10 maxv = s * min M (1/10) := by
  rcases eq_or_lt_of_le hM with h0 | hpos
  · rw [← h0, mul_zero]
    rw [show min (0:ℚ) (1/10) = 0 from min_eq_left (by norm_num), mul_zero]
    rw [shapeAxis]
    rw [show preClampAxis 0 0 (1/100) 10 = 0 from by
      norm_num [preClampAxis, accelSign]]
    exact clampAxis_of_le 0 0 maxv (by rw [abs_zero]; linarith)
  · rcases hs with rfl | rfl
    · simp only [one_mul]
      rw [shapeAxis, preClamp_zero_pos M hpos]
      exact clampAxis_of_le _ _ _ (le_trans (abs_min_le M hM) hmax)
    · simp only [neg_one_mul]
      rw [shapeAxis, preClamp_zero_neg M hpos, clampAxis, abs_neg,
        if_neg (not_lt.mpr (le_trans (abs_min_le M hM) hmax))]

/-- C4 witness: a backward step of magnitude 3 at rest shapes to −0.1
(= −1 · min(3, 0.1)) with the default max_vx = 2. -/
theorem shape_step_accel_limit_witness :
    ((0:ℚ) ≤ 3 ∧ ((-1:ℚ) = 1 ∨ (-1:ℚ) = -1) ∧ (1/10:ℚ) ≤ 2) ∧
    shapeAxis ((-1) * 3) 0 (1/100) 10 2 = (-1) * min 3 (1/10) :=
  ⟨⟨by norm_num, Or.inr rfl, by norm_num⟩,
   shape_step_accel_limit 3 (-1) 2 (by norm_num) (Or.inr rfl) (by norm_num)⟩

/-- C5 (amended): when the accel-limited value exceeds the configured
maximum in magnitude, the final output has exactly the maximum magnitude,
but its sign is the sign of the RAW command (sign_x of source line 175),
not of the pre-clamp value. -/
theorem clamp_exceeds_max (raw current dt maxAcc maxMag : ℚ)
    (hpos : 0 < maxMag)
    (h : |preClampAxis raw current dt maxAcc| > maxMag) :
    shapeAxis raw current dt maxAcc maxMag = rawSign raw * maxMag ∧
    |shapeAxis raw current dt maxAcc maxMag| = maxMag := by
  have h1 : shapeAxis raw current dt maxAcc maxMag = rawSign raw * maxMag := by
    rw [shapeAxis, clampAxis, if_pos h]
  refine ⟨h1, ?_⟩
  rw [h1, abs_mul]
  have h2 : |rawSign raw| = 1 := by
    rw [rawSign]
    split_ifs <;> norm_num
  rw [h2, one_mul, abs_of_pos hpos]

/-- C5 witness: a linear command of 5.0 with max_vx = 2.0 (taken at
current velocity 0 with dt = 0.5 s so the accel limit is not binding)
shapes to exactly 2.0. -/
theorem clamp_exceeds_max_witness :
    ((0:ℚ) < 2 ∧ |preClampAxis 5 0 (1/2) 10| > 2) ∧
    shapeAxis 5 0 (1/2) 10 2 = 2 := by
  have hpre : |preClampAxis 5 0 (1/2) 10| > 2 := by
    norm_num [preClampAxis, accelSign, abs]
  refine ⟨⟨by norm_num, hpre⟩, ?_⟩
  have h := (clamp_exceeds_max 5 0 (1/2) 10 2 (by norm_num) hpre).1
  rw [h, rawSign, if_neg (by norm_num : ¬(5:ℚ) < 0), one_mul]

/-- C5 counterexample: with command 0.1, current velocity −5, dt = 0.01,
max accel 10 and max_vx = 2, the pre-clamp value is −4.9 (negative), the
clamp fires, and the output is +2 — the positive sign of the raw command,
not the sign of the pre-clamp value, so the claim's sign-preservation of
the pre-clamp value fails. -/
theorem clamp_sign_not_from_preclamp_cex :
    preClampAxis (1/10) (-5) (1/100) 10 = -(49/10) ∧
    |preClampAxis (1/10) (-5) (1/100) 10| > 2 ∧
    preClampAxis (1/10) (-5) (1/100) 10 < 0 ∧
    shapeAxis (1/10) (-5) (1/100) 10 2 = 2 ∧
    (0:ℚ) < 2 := by
  norm_num [shapeAxis, preClampAxis, clampAxis, accelSign, rawSign, abs]

/-- The pubOdom read loop never touches the odometry timestamp. -/
theorem odomReadGo_last_odom_dt (s : DriverState) (g : Wheel → Option ℚ) :
    ∀ l : List Wheel, (odomReadGo s l g).last_odom_dt = s.last_odom_dt := by
  intro l
  induction l generalizing s with
  | nil => rfl
  | cons t rest ih =>
    rw [odomReadGo]
    cases g t with
    | none => rfl
    | some rv =>
      rw [ih]
      cases t <;> rfl

/-- A state whose right wheels measure 2 rad/s (so w = 2 with the unit
geometry of dd0) and whose odometry timestamp is 10. -/
def backClockState : DriverState :=
  { baseState with
      last_odom_dt := 10
      dd := { dd0 with fr_vel := 2, br_vel := 2 } }

/-- C6 (amended): `pubOdom` integrates with dt = now − last_odom_dt taken
straight from the wall clock; when the clock goes backward this dt is
negative and the integration step still executes with it (the heading
advances by w·dt with dt < 0) — there is no clamp to zero and no skip. -/
theorem pubOdom_negative_dt_not_clamped
    (s : DriverState) (now : ℚ) (g : Wheel → Option ℚ) (cosF sinF : ℚ → ℚ)
    (h : now < s.last_odom_dt) :
    (pubOdom s now g cosF sinF).1.dd.yaw =
      (odomReadGo s wheelOrder g).dd.yaw +
        (odomReadGo s wheelOrder g).dd.odomW * (now - s.last_odom_dt) ∧
    now - s.last_odom_dt < 0 := by
  constructor
  · rw [pubOdom]
    rw [odomReadGo_last_odom_dt s g wheelOrder]
    rfl
  · exact sub_neg.mpr h

/-- C6 witness: clock reading 9 after timestamp 10 gives dt = −1 and the
heading regresses from 0 to −2 at yaw rate 2. -/
theorem pubOdom_negative_dt_not_clamped_witness :
    ((9:ℚ) < backClockState.last_odom_dt) ∧
    (pubOdom backClockState 9 (fun _ => none)
        (fun _ => 1) (fun _ => 0)).1.dd.yaw =
      (odomReadGo backClockState wheelOrder (fun _ => none)).dd.yaw +
      (odomReadGo backClockState wheelOrder
        (fun _ => none)).dd.odomW * ((9:ℚ) - backClockState.last_odom_dt) := by
  refine ⟨by norm_num [backClockState, baseState], ?_⟩
  exact (pubOdom_negative_dt_not_clamped backClockState 9 (fun _ => none)
    (fun _ => 1) (fun _ => 0) (by norm_num [backClockState, baseState])).1

/-- C6 counterexample: with the clock going backward (reading 9 after
timestamp 10) and yaw rate w = 2 ≥ 0, the published heading becomes −2
from 0: the integration ran with dt = −1.  Under the claimed behavior
(dt clamped to zero or step skipped) the heading could not decrease. -/
theorem pubOdom_negative_dt_cex :
    backClockState.dd.yaw = 0 ∧
    backClockState.dd.odomW = 2 ∧
    (pubOdom backClockState 9 (fun _ => none)
        (fun _ => 1) (fun _ => 0)).1.dd.yaw = -2 ∧
    (-2:ℚ) < 0 := by
  norm_num [pubOdom, odomReadGo, wheelOrder, backClockState, baseState, dd0,
    DiffDrive.calcRobotOdom, DiffDrive.odomV, DiffDrive.odomW,
    DiffDrive.leftLinVel, DiffDrive.rightLinVel]

/-- A state whose right wheels measure 2 rad/s, pose at the origin,
command timestamp 0. -/
def rightSpinState : DriverState :=
  { baseState with
      dd := { dd0 with fr_vel := 2, br_vel := 2 } }

/-- C9 (amended): processing a velocity command mutates only the command
timestamp, the per-wheel targets, and the DiffDrive object — the latter
is advanced by exactly one odometry integration step with dt = time since
the last command (source line 189), so the pose {x, y, yaw} is NOT left
unchanged in general; target currents, PIDs, measured RPMs and the
odometry timestamp are untouched. -/
theorem cmdVel_advances_odometry
    (s : DriverState) (lin ang now : ℚ) (cosF sinF : ℚ → ℚ) :
    (cmdVelCallback s lin ang now cosF sinF).dd =
      (s.dd.calcRobotOdom (now - s.last_cmd_t) cosF sinF).1 ∧
    (cmdVelCallback s lin ang now cosF sinF).last_cmd_t = now ∧
    (cmdVelCallback s lin ang now cosF sinF).target_current = s.target_current ∧
    (cmdVelCallback s lin ang now cosF sinF).vel_pids = s.vel_pids ∧
    (cmdVelCallback s lin ang now cosF sinF).current_whl_rpm = s.current_whl_rpm ∧
    (cmdVelCallback s lin ang now cosF sinF).last_odom_dt = s.last_odom_dt :=
  ⟨rfl, rfl, rfl, rfl, rfl, rfl⟩

/-- C9 counterexample: a zero velocity command received one second after
the previous one, while the right wheels measure 2 rad/s, moves the
stored heading from 0 to 2 — the callback does not leave {x, y, yaw}
unchanged. -/
theorem cmdVel_mutates_pose_cex :
    rightSpinState.dd.yaw = 0 ∧
    (cmdVelCallback rightSpinState 0 0 1 (fun _ => 1) (fun _ => 0)).dd.yaw = 2 ∧
    (2:ℚ) ≠ 0 := by
  norm_num [cmdVelCallback, rightSpinState, baseState, dd0,
    DiffDrive.calcRobotOdom, DiffDrive.odomV, DiffDrive.odomW,
    DiffDrive.leftLinVel, DiffDrive.rightLinVel]

/-- A torque-mode state in which only the front-left wheel has a nonzero
target (1 RPM), with fresh default-gain PIDs everywhere. -/
def sharedPidState : DriverState :=
  { baseState with
      target_whl_rpm := fun t => if t = .fl then 1 else 0 }

/-- C2 (code-bug evaluation): with target 1 RPM on the front-left wheel
only, all measured velocities 0 and fresh PIDs (kp = 200, ki = 10,
kd = 0), one torque-mode read/PID pass commands 10 mA to the back-left
wheel although its own error is 0 — because source line 151 updates
`self._vel_pids["fr"]` for every wheel, the "fr" regulator's integral has
accumulated the front-left error (it ends at 1), while the fl and bl
regulators are never touched.  Under one-PID-per-wheel semantics bl's
command would be 0. -/
theorem pid_shared_fr_instance_bug :
    (torqueReadPhase sharedPidState (fun _ => some 0)).1.target_current .bl = 10 ∧
    sharedPidState.target_whl_rpm .bl - (0:ℚ) = 0 ∧
    ((torqueReadPhase sharedPidState (fun _ => some 0)).1.vel_pids .fr).integral = 1 ∧
    (torqueReadPhase sharedPidState (fun _ => some 0)).1.vel_pids .fl = pid0 ∧
    (torqueReadPhase sharedPidState (fun _ => some 0)).1.vel_pids .bl = pid0 ∧
    (10:ℚ) ≠ 0 := by
  refine ⟨?_, ?_, ?_, ?_, ?_, by norm_num⟩ <;>
    · simp [torqueReadPhase, torqueReadGo, wheelOrder, torqueReadStep,
        updW, updP, PID.update, sharedPidState, baseState, pid0]
      try norm_num

/-- C3 (amended): in torque mode with all four velocity reads successful,
the error fed to the PID for each wheel is that wheel's target RPM minus
the RAW measured velocity (the orientation-flipped local `vel` of source
line 147 is computed but unused in the error); the targets were already
sign-flipped per wheel when stored by the command callback. -/
theorem torque_err_uses_raw_measurement
    (s : DriverState) (g : Wheel → Option ℚ) (a b c d : ℚ)
    (hfl : g .fl = some a) (hbl : g .bl = some b)
    (hbr : g .br = some c) (hfr : g .fr = some d) :
    (torqueReadPhase s g).2 .fl = s.target_whl_rpm .fl - a ∧
    (torqueReadPhase s g).2 .bl = s.target_whl_rpm .bl - b ∧
    (torqueReadPhase s g).2 .br = s.target_whl_rpm .br - c ∧
    (torqueReadPhase s g).2 .fr = s.target_whl_rpm .fr - d := by
  simp [torqueReadPhase, torqueReadGo, wheelOrder, hfl, hbl, hbr, hfr,
    torqueReadStep, updW, updP]

/-- C3 witness: with all targets 0 and all reads 2, every wheel's fed
error is −2 = 0 − 2. -/
theorem torque_err_uses_raw_measurement_witness :
    ((fun _ : Wheel => some (2:ℚ)) .fl = some 2 ∧
     (fun _ : Wheel => some (2:ℚ)) .bl = some 2 ∧
     (fun _ : Wheel => some (2:ℚ)) .br = some 2 ∧
     (fun _ : Wheel => some (2:ℚ)) .fr = some 2) ∧
    (torqueReadPhase baseState (fun _ => some 2)).2 .fl =
      baseState.target_whl_rpm .fl - 2 :=
  ⟨⟨rfl, rfl, rfl, rfl⟩,
   (torque_err_uses_raw_measurement baseState (fun _ => some 2) 2 2 2 2
     rfl rfl rfl rfl).1⟩

/-- C3 counterexample: front-left has flip sign −1; with target 0 and raw
measurement 2, the error actually fed is 0 − 2 = −2, while the claim's
orientation-flipped error would be 0 − 2·(−1) = 2. -/
theorem torque_err_not_flipped_cex :
    (torqueReadPhase baseState (fun _ => some 2)).2 .fl = -2 ∧
    baseState.target_whl_rpm .fl - 2 * flip_direction .fl = 2 ∧
    (torqueReadPhase baseState (fun _ => some 2)).2 .fl ≠
      baseState.target_whl_rpm .fl - 2 * flip_direction .fl := by
  refine ⟨?_, ?_, ?_⟩ <;>
    · simp [torqueReadPhase, torqueReadGo, wheelOrder, torqueReadStep,
        updW, updP, PID.update, baseState, pid0, flip_direction]
      try norm_num

/-- A torque-mode state with target 5 RPM on the back-right wheel, all
prior target currents at 7 mA, fresh default-gain PIDs. -/
def abortReadState : DriverState :=
  { baseState with
      target_whl_rpm := fun t => if t = .br then 5 else 0
      target_current := fun _ => 7 }

/-- A read oracle where only the back-left velocity read fails. -/
def abortReadFails : Wheel → Option ℚ
  | .fl => some 0
  | .bl => none
  | .br => some 0
  | .fr => some 0

/-- C7 (amended): in torque mode, when the front-left velocity read
succeeds and the back-left read fails, the exception aborts the whole
read/PID loop: front-left (processed before the failure) gets its PID
output, but back-left, back-right and front-right keep their prior target
currents and measured RPMs, and the per-wheel PID instances other than
the shared "fr" one are untouched; the write phase still runs for all
four wheels with these values (the tick is not aborted). -/
theorem torque_read_abort_on_failure
    (s : DriverState) (g : Wheel → Option ℚ) (a : ℚ)
    (hmode : s.torque_mode = true)
    (hfl : g .fl = some a) (hbl : g .bl = none) :
    (applyControls s g).1.target_current .fl =
      ((s.vel_pids .fr).update (s.target_whl_rpm .fl - a)).2 ∧
    (applyControls s g).1.target_current .bl = s.target_current .bl ∧
    (applyControls s g).1.target_current .br = s.target_current .br ∧
    (applyControls s g).1.target_current .fr = s.target_current .fr ∧
    (applyControls s g).1.current_whl_rpm .bl = s.current_whl_rpm .bl ∧
    (applyControls s g).1.current_whl_rpm .br = s.current_whl_rpm .br ∧
    (applyControls s g).1.vel_pids .fl = s.vel_pids .fl ∧
    (applyControls s g).2 =
      wheelOrder.map (fun t => (t, (applyControls s g).1.target_current t)) := by
  refine ⟨?_, ?_, ?_, ?_, ?_, ?_, ?_, ?_⟩ <;>
    simp [applyControls, hmode, torqueReadPhase, torqueReadGo, wheelOrder,
      hfl, hbl, torqueReadStep, updW, updP]

/-- C7 witness: with back-left failing after a successful front-left read
(value 0, target 0, kp = 200, ki = 10), front-left is commanded its PID
output 0 while the other wheels keep their prior 7 mA; four writes still
happen. -/
theorem torque_read_abort_on_failure_witness :
    (abortReadState.torque_mode = true ∧
     abortReadFails .fl = some 0 ∧ abortReadFails .bl = none) ∧
    ((applyControls abortReadState abortReadFails).1.target_current .br =
      abortReadState.target_current .br ∧
     (applyControls abortReadState abortReadFails).2 =
      wheelOrder.map (fun t =>
        (t, (applyControls abortReadState abortReadFails).1.target_current t))) := by
  refine ⟨⟨rfl, rfl, rfl⟩, ?_, ?_⟩
  · exact (torque_read_abort_on_failure abortReadState abortReadFails 0
      rfl rfl rfl).2.2.1
  · exact (torque_read_abort_on_failure abortReadState abortReadFails 0
      rfl rfl rfl).2.2.2.2.2.2.2

/-- C7 counterexample: back-right's target is 5 RPM and its prior target
current 7 mA; when back-left's read fails, back-right's error/PID update
does not execute — its commanded current stays 7, although its own PID on
error 5 would output 1005·... (here: 5·200 + 5·10 = 1050 ≠ 7).  This
refutes the claim that every non-failing wheel's PID update still runs. -/
theorem torque_wheel_failure_not_isolated_cex :
    (applyControls abortReadState abortReadFails).1.target_current .br = 7 ∧
    ((abortReadState.vel_pids .br).update
      (abortReadState.target_whl_rpm .br - 0)).2 = 1050 ∧
    (7:ℚ) ≠ 1050 := by
  refine ⟨?_, ?_, by norm_num⟩ <;>
    · simp [applyControls, abortReadState, abortReadFails, torqueReadPhase,
        torqueReadGo, wheelOrder, torqueReadStep, updW, updP, PID.update,
        baseState, pid0]
      try norm_num

end ZLAC
